import Mathlib

/-!
Verification of the Pattern Mining & Risk Correlation Engine of the
`vigilant_child` repository, shallowly embedded from
`big_brother_cnn/analyzers/pattern_analyzer.py` and
`big_brother_cnn/integrated_analysis.py`.

Timestamps are modelled as natural numbers counting seconds since an epoch;
the calendar day of a timestamp is its quotient by 86400 and the time of day
its remainder, matching the grouping and `%H:%M` formatting done by the
source on `datetime` values.  Python floats used for scores and averages are
modelled as rationals.
-/

namespace BigBrother

/-- Python substring test `needle in hay` on strings. -/
def strContains (hay needle : String) : Bool :=
  hay.toList.tails.any (fun t => needle.toList.isPrefixOf t)

/-- Python `str.lower()`, character-wise (its ASCII action, which covers
every string the system compares). -/
def lowerStr (s : String) : String := String.mk (s.toList.map Char.toLower)

/-- Python `str.strip()`: drop leading and trailing whitespace. -/
def trimStr (s : String) : String :=
  String.mk (((s.toList.dropWhile Char.isWhitespace).reverse.dropWhile
    Char.isWhitespace).reverse)

/-- Two-digit zero padding, as produced by `%H`/`%M` and the `:02d` format. -/
def pad2 (n : Nat) : String :=
  if n < 10 then "0" ++ toString n else toString n

/-- `timestamp.strftime('%H:%M')` for a timestamp in seconds. -/
def formatHM (t : Nat) : String :=
  pad2 (t % 86400 / 3600) ++ ":" ++ pad2 (t % 3600 / 60)

/-- `'HH:MM'` back to minutes since midnight, the source's `time_to_minutes`
helper inside `_detect_time_pattern_change` (`h * 60 + m`). -/
def parseHM (s : String) : Nat :=
  match s.split (fun c => c = ':') with
  | [h, m] => (h.toNat?.getD 0) * 60 + (m.toNat?.getD 0)
  | _ => 0

/-- Consecutive pairs `(l[i], l[i+1])` of a list, the index ranges
`for i in range(len(l) - 1)` used throughout the source. -/
def consecutivePairs : List α → List (α × α)
  | a :: b :: rest => (a, b) :: consecutivePairs (b :: rest)
  | _ => []

/-- Consecutive triples `(l[i], l[i+1], l[i+2])`, the index range
`for i in range(len(l) - 2)` of `_detect_unusual_location_sequence`. -/
def triples : List α → List (α × α × α)
  | a :: b :: c :: rest => (a, b, c) :: triples (b :: c :: rest)
  | _ => []

/-- Append `v` to the bucket of key `k` in an association list, creating the
bucket at the end when absent: Python's `defaultdict(list)` append, which
keeps first-insertion key order. -/
def pushEntry [DecidableEq κ] : List (κ × List ν) → κ → ν → List (κ × List ν)
  | [], k, v => [(k, [v])]
  | (k', vs) :: rest, k, v =>
    if k' = k then (k', vs ++ [v]) :: rest else (k', vs) :: pushEntry rest k v

/-- Add `n` to the counter of key `k` in an association list, creating it at
the end when absent: Python's `defaultdict(int)` increment. -/
def bumpEntry [DecidableEq κ] : List (κ × Nat) → κ → Nat → List (κ × Nat)
  | [], k, n => [(k, n)]
  | (k', c) :: rest, k, n =>
    if k' = k then (k', c + n) :: rest else (k', c) :: bumpEntry rest k n

/-- Stable insertion into a list sorted by the boolean relation `le`:
an element is placed after every earlier element it does not strictly beat. -/
def insertBy (le : α → α → Bool) (x : α) : List α → List α
  | [] => [x]
  | y :: ys => if le y x then y :: insertBy le x ys else x :: y :: ys

/-- Stable sort by `le`, modelling Python's stable `sorted`/`list.sort`. -/
def sortBy (le : α → α → Bool) : List α → List α
  | [] => []
  | x :: xs => insertBy le x (sortBy le xs)

/-- `DetectionRecord` of `pattern_analyzer.py`.  The `attributes`,
`face_info` and `badge_info` snapshot dictionaries are never read by the
mining code and are not modelled. -/
structure DetectionRecord where
  timestamp : Nat
  employee_id : String := ""
  location : String := ""
  confidence : ℚ := 0
deriving DecidableEq, Repr

/-- Modelled from the spec: the immutable configuration object
(`self.pattern_config`) read by `_detect_time_pattern_change`,
`_is_unusual_sequence` and `_analyze_restricted_access`.  Its initialization
is absent from the source (`__init__` never assigns the attribute); §6 of the
spec names its fields: the lunch-variance threshold in minutes and the
restricted-area name list. -/
structure PatternConfig where
  lunch_time_variance_threshold : ℚ
  restricted_areas : List String
deriving DecidableEq, Repr

/-- Hour of day of a timestamp, `detection.timestamp.hour`. -/
def hourOf (t : Nat) : Nat := t % 86400 / 3600

/-- Calendar day of a timestamp, the grouping key
`detection.timestamp.date()`. -/
def dayOf (t : Nat) : Nat := t / 86400

/-- Minutes since midnight of a timestamp, the value `time_to_minutes`
recovers from an arrival time formatted with `%H:%M`. -/
def minutesOfDay (t : Nat) : Nat := t % 86400 / 60

/-- Timestamp comparison used by every `sort`/`sorted` call of the source. -/
def tsLe (a b : DetectionRecord) : Bool := a.timestamp ≤ b.timestamp

/-- The lunch-entry dictionary built by `_detect_lunch_break`. -/
structure LunchInfo where
  start_time : String
  end_time : String
  duration_minutes : Nat
deriving DecidableEq, Repr

/-- Signed gap in seconds between two detections, the `timedelta`
`day_detections[i + 1].timestamp - day_detections[i].timestamp`. -/
def gapSec (p : DetectionRecord × DetectionRecord) : ℤ :=
  (p.2.timestamp : ℤ) - (p.1.timestamp : ℤ)

/-- Loop of `_detect_lunch_break`: track the largest gap strictly between
30 minutes and 3 hours, remembering its endpoints; ties keep the first. -/
def lunchFold : List (DetectionRecord × DetectionRecord) → ℤ →
    Option (Nat × Nat) → ℤ × Option (Nat × Nat)
  | [], mg, best => (mg, best)
  | p :: rest, mg, best =>
    if 1800 < gapSec p ∧ gapSec p < 10800 ∧ gapSec p > mg then
      lunchFold rest (gapSec p) (some (p.1.timestamp, p.2.timestamp))
    else
      lunchFold rest mg best

/-- `_detect_lunch_break`: for fewer than two detections return `None`,
otherwise the largest consecutive gap strictly between 30 minutes and
3 hours, formatted; `None` when no gap qualifies. -/
def detect_lunch_break (day_detections : List DetectionRecord) :
    Option LunchInfo :=
  if day_detections.length < 2 then none
  else
    let r := lunchFold (consecutivePairs day_detections) 0 none
    match r.2 with
    | some se =>
      some { start_time := formatHM se.1, end_time := formatHM se.2,
             duration_minutes := r.1.toNat / 60 }
    | none => none

/-- `_calculate_hourly_activity`: detection count per hour of day, in
first-seen hour order. -/
def calculate_hourly_activity (day_detections : List DetectionRecord) :
    List (Nat × Nat) :=
  day_detections.foldl (fun acc d => bumpEntry acc (hourOf d.timestamp) 1) []

/-- `_identify_peak_hours`: aggregate the per-day hourly histograms, take the
mean over the hours that have any activity, and return in ascending order the
hours whose total strictly exceeds 1.5 times that mean. -/
def identify_peak_hours (daily_patterns : List (Nat × List (Nat × Nat))) :
    List Nat :=
  let total_hourly :=
    daily_patterns.foldl
      (fun acc day =>
        day.2.foldl (fun a hc => bumpEntry a hc.1 hc.2) acc) []
  if total_hourly = [] then []
  else
    let avg : ℚ := ((total_hourly.map (fun hc => (hc.2 : ℚ))).sum) /
      (total_hourly.length : ℚ)
    sortBy (fun a b => a ≤ b)
      ((total_hourly.filter (fun hc => (hc.2 : ℚ) > avg * (3/2))).map
        (fun hc => hc.1))

/-- Output dictionary of `_analyze_temporal_patterns`.  Day keys are the
epoch-day numbers standing for the source's ISO date strings.
`arrival_minutes` records, alongside each `%H:%M` arrival string, the value
`time_to_minutes` recovers from it; it is carried here so that
`_detect_behavioral_changes` can hand minute lists to
`_detect_time_pattern_change`. -/
structure TemporalPatterns where
  arrival_times : List String := []
  departure_times : List String := []
  lunch_times : List LunchInfo := []
  peak_activity_hours : List Nat := []
  presence_duration : List (Nat × ℚ) := []
  daily_patterns : List (Nat × List (Nat × Nat)) := []
  arrival_minutes : List Nat := []
deriving DecidableEq, Repr

/-- `_analyze_temporal_patterns`: group detections by calendar day in
first-seen-day order; for days with at least two records push the earliest
time as arrival, the latest as departure and their distance in hours as
presence duration; push the day's lunch entry when one qualifies; record the
hourly histogram of every day; finally derive the peak hours. -/
def analyze_temporal_patterns (detections : List DetectionRecord) :
    TemporalPatterns :=
  let daily : List (Nat × List DetectionRecord) :=
    detections.foldl (fun acc d => pushEntry acc (dayOf d.timestamp) d) []
  let base :=
    daily.foldl
      (fun (pat : TemporalPatterns) (day : Nat × List DetectionRecord) =>
        let ds := sortBy tsLe day.2
        let pat :=
          match ds with
          | first :: _ :: _ =>
            let lastTs :=
              match ds.getLast? with
              | some lastD => lastD.timestamp
              | none => first.timestamp
            { pat with
              arrival_times := pat.arrival_times ++ [formatHM first.timestamp],
              departure_times := pat.departure_times ++ [formatHM lastTs],
              presence_duration := pat.presence_duration ++
                [(day.1, ((lastTs : ℚ) - (first.timestamp : ℚ)) / 3600)],
              arrival_minutes := pat.arrival_minutes ++
                [minutesOfDay first.timestamp] }
          | _ => pat
        let pat :=
          match detect_lunch_break ds with
          | some lunch => { pat with lunch_times := pat.lunch_times ++ [lunch] }
          | none => pat
        { pat with daily_patterns := pat.daily_patterns ++
            [(day.1, calculate_hourly_activity ds)] })
      {}
  { base with peak_activity_hours := identify_peak_hours base.daily_patterns }

/-- Walk of `_calculate_time_per_location`: whenever the location changes,
append the minutes elapsed since entering the previous location to that
location's bucket.  The previous location contributes only when it is truthy,
i.e. not the empty string. -/
def timeWalk : List DetectionRecord → Option (String × Nat) →
    List (String × List ℚ) → List (String × List ℚ)
  | [], _, acc => acc
  | d :: rest, none, acc => timeWalk rest (some (d.location, d.timestamp)) acc
  | d :: rest, some (loc, start), acc =>
    if loc = d.location then timeWalk rest (some (loc, start)) acc
    else
      let acc' :=
        if loc = "" then acc
        else pushEntry acc loc (((d.timestamp : ℚ) - (start : ℚ)) / 60)
      timeWalk rest (some (d.location, d.timestamp)) acc'

/-- `_calculate_time_per_location`: average the per-visit dwell minutes of
each location over the chronologically sorted detections. -/
def calculate_time_per_location (detections : List DetectionRecord) :
    List (String × ℚ) :=
  (timeWalk (sortBy tsLe detections) none []).filterMap
    (fun lv => if lv.2 = [] then none
               else some (lv.1, lv.2.sum / (lv.2.length : ℚ)))

/-- One entry of `typical_routes`. -/
structure RouteInfo where
  route : String
  frequency : Nat
  locations : List String
deriving DecidableEq, Repr

/-- Sequence grouping of `_identify_typical_routes`: a detection joins the
current sequence when its gap to the sequence's last record is under one
hour, otherwise the sequence is closed (kept only when it has at least three
records) and a new one starts. -/
def routeGroup : List DetectionRecord → List DetectionRecord →
    List (List DetectionRecord) → List (List DetectionRecord)
  | [], cur, acc => if cur.length ≥ 3 then acc ++ [cur] else acc
  | d :: rest, cur, acc =>
    match cur.getLast? with
    | none => routeGroup rest [d] acc
    | some lastD =>
      if (d.timestamp : ℤ) - (lastD.timestamp : ℤ) < 3600 then
        routeGroup rest (cur ++ [d]) acc
      else
        routeGroup rest [d]
          (if cur.length ≥ 3 then acc ++ [cur] else acc)

/-- `_identify_typical_routes`: join each kept sequence's locations with
`" -> "`, tally identical route strings, order by frequency descending
(stably), keep those seen at least twice, return the top ten. -/
def identify_typical_routes (detections : List DetectionRecord) :
    List RouteInfo :=
  let sequences := routeGroup (sortBy tsLe detections) [] []
  let route_patterns : List (String × Nat) :=
    sequences.foldl
      (fun acc seq =>
        bumpEntry acc (" -> ".intercalate (seq.map (·.location))) 1) []
  (((sortBy (fun a b => b.2 ≤ a.2) route_patterns).filter
      (fun rf => rf.2 ≥ 2)).map
    (fun rf => { route := rf.1, frequency := rf.2,
                 locations := rf.1.splitOn " -> " })).take 10

/-- Output dictionary of `_analyze_spatial_patterns`.  `area_preferences` is
initialized and never written by the source, hence constantly empty. -/
structure SpatialPatterns where
  frequent_locations : List (String × Nat) := []
  location_transitions : List (String × Nat) := []
  typical_routes : List RouteInfo := []
  time_spent_per_location : List (String × ℚ) := []
  area_preferences : List (String × Nat) := []
deriving DecidableEq, Repr

/-- `_analyze_spatial_patterns`: location frequency over the incoming order,
transition counts between distinct consecutive locations, average dwell per
location, and the typical routes. -/
def analyze_spatial_patterns (detections : List DetectionRecord) :
    SpatialPatterns :=
  if detections = [] then {}
  else
    { frequent_locations :=
        detections.foldl (fun acc d => bumpEntry acc d.location 1) [],
      location_transitions :=
        (consecutivePairs detections).foldl
          (fun acc p =>
            if p.1.location ≠ p.2.location then
              bumpEntry acc (p.1.location ++ " -> " ++ p.2.location) 1
            else acc) [],
      time_spent_per_location := calculate_time_per_location detections,
      typical_routes := identify_typical_routes detections }

/-- One isolation period of `_detect_isolation_periods`; the source stores
ISO-formatted endpoint strings, modelled by the raw timestamps. -/
structure IsolationPeriod where
  start_ts : Nat
  end_ts : Nat
  duration_minutes : ℚ
  severity : String
deriving DecidableEq, Repr

/-- `_detect_isolation_periods`: each consecutive gap above 120 minutes is an
isolation period, medium severity above 240 minutes and low otherwise. -/
def detect_isolation_periods (detections : List DetectionRecord) :
    List IsolationPeriod :=
  (consecutivePairs detections).filterMap
    (fun p =>
      let gap : ℚ := ((p.2.timestamp : ℚ) - (p.1.timestamp : ℚ)) / 60
      if gap > 120 then
        some { start_ts := p.1.timestamp, end_ts := p.2.timestamp,
               duration_minutes := gap,
               severity := if gap > 240 then "medium" else "low" }
      else none)

/-- The common-area keyword list hardcoded in `_calculate_social_score`. -/
def commonAreas : List String := ["cafe", "lunch", "meeting", "lounge", "reception"]

/-- `_calculate_social_score`: share of detections whose lower-cased location
contains a common-area keyword, clipped to at most 1. -/
def calculate_social_score (detections : List DetectionRecord) : ℚ :=
  if detections.length = 0 then 0
  else
    let hits := (detections.filter
      (fun d => commonAreas.any (fun a => strContains (lowerStr d.location) a))).length
    min 1 ((hits : ℚ) / (detections.length : ℚ))

/-- Output dictionary of `_analyze_social_patterns`; `concurrent_presences`
and `group_formations` are initialized and never written. -/
structure SocialPatterns where
  isolation_periods : List IsolationPeriod := []
  social_score : ℚ := 0
deriving DecidableEq, Repr

/-- `_analyze_social_patterns`. -/
def analyze_social_patterns (detections : List DetectionRecord) :
    SocialPatterns :=
  { isolation_periods := detect_isolation_periods detections,
    social_score := calculate_social_score detections }

/-- One location delta inside a `location_pattern_change` record. -/
structure ChangeDetail where
  location : String
  change_type : String
  difference_pct : ℚ
  recent_pct : ℚ
  historical_pct : ℚ
deriving DecidableEq, Repr

/-- Union of the change-record dictionaries produced by
`_detect_time_pattern_change`, `_detect_lunch_pattern_change` and
`_detect_location_pattern_change`; fields a given record type does not carry
keep their defaults. -/
structure TimeChange where
  ctype : String
  severity : String
  description : String := ""
  recent_average : String := ""
  historical_average : String := ""
  difference_minutes : ℤ := 0
  recent_avg_duration : Option ℤ := none
  historical_avg_duration : Option ℤ := none
  duration_change : Option ℤ := none
  changes : List ChangeDetail := []
deriving DecidableEq, Repr

/-- Mean of a list of naturals as a rational, `np.mean` on the converted
minute values. -/
def meanQ (l : List Nat) : ℚ := ((l.map (fun n => (n : ℚ))).sum) / (l.length : ℚ)

/-- The `HH:MM` string `_detect_time_pattern_change` builds from a
(possibly fractional, non-negative) minute average via
`int(avg // 60)` and `int(avg % 60)`. -/
def formatAvgHM (avg : ℚ) : String :=
  pad2 (⌊avg⌋.toNat / 60) ++ ":" ++ pad2 (⌊avg⌋.toNat % 60)

/-- `_detect_time_pattern_change` over times already converted to minutes
since midnight (the source first parses its `HH:MM` inputs with
`time_to_minutes`).  Empty recent or historical sample: `None`.  Otherwise a
change record exactly when the absolute mean difference strictly exceeds the
configured threshold, with severity `medium` below twice the threshold and
`high` from there on. -/
def detect_time_pattern_change (threshold : ℚ) (pattern_type : String)
    (recent_minutes historical_minutes : List Nat) : Option TimeChange :=
  if recent_minutes = [] ∨ historical_minutes = [] then none
  else
    let recent_avg := meanQ recent_minutes
    let historical_avg := meanQ historical_minutes
    let diff := |recent_avg - historical_avg|
    if diff > threshold then
      some { ctype := pattern_type ++ "_change",
             severity := if diff < threshold * 2 then "medium" else "high",
             description := "Mudança significativa no horário de " ++ pattern_type,
             recent_average := formatAvgHM recent_avg,
             historical_average := formatAvgHM historical_avg,
             difference_minutes := ⌊diff⌋ }
    else none

/-- `_detect_lunch_pattern_change`: delegate the start times to
`_detect_time_pattern_change` and, when a change comes back, decorate it with
the average-duration figures. -/
def detect_lunch_pattern_change (threshold : ℚ)
    (recent_lunches historical_lunches : List LunchInfo) : Option TimeChange :=
  if recent_lunches = [] ∨ historical_lunches = [] then none
  else
    match detect_time_pattern_change threshold "lunch"
        (recent_lunches.map (fun l => parseHM l.start_time))
        (historical_lunches.map (fun l => parseHM l.start_time)) with
    | none => none
    | some c =>
      let recent_avg_dur := meanQ (recent_lunches.map (fun l => l.duration_minutes))
      let historical_avg_dur :=
        meanQ (historical_lunches.map (fun l => l.duration_minutes))
      some { c with
        recent_avg_duration := some ⌊recent_avg_dur⌋,
        historical_avg_duration := some ⌊historical_avg_dur⌋,
        duration_change := some ⌊|recent_avg_dur - historical_avg_dur|⌋ }

/-- `_detect_location_pattern_change`: normalize both frequency tables to
shares, bundle every location whose share moved by strictly more than 20
percentage points into one medium-severity record; `None` when either table
is empty or no location qualifies.  Python iterates the union as a set with
unspecified order; the embedding fixes recent-key order followed by the
unseen historical keys. -/
def detect_location_pattern_change
    (recent_locations historical_locations : List (String × Nat)) :
    Option TimeChange :=
  if recent_locations = [] ∨ historical_locations = [] then none
  else
    let recent_total : ℚ := (recent_locations.map (fun lc => (lc.2 : ℚ))).sum
    let historical_total : ℚ :=
      (historical_locations.map (fun lc => (lc.2 : ℚ))).sum
    let recentKeys := recent_locations.map (fun lc => lc.1)
    let all_locations := recentKeys ++
      ((historical_locations.map (fun lc => lc.1)).filter
        (fun l => ¬ recentKeys.contains l))
    let pct : List (String × Nat) → ℚ → String → ℚ :=
      fun (tbl : List (String × Nat)) (tot : ℚ) (l : String) =>
      match tbl.lookup l with
      | some c => (c : ℚ) / tot
      | none => 0
    let significant := all_locations.filterMap (fun l =>
      let rp := pct recent_locations recent_total l
      let hp := pct historical_locations historical_total l
      if |rp - hp| > 1/5 then
        some { location := l,
               change_type := if rp > hp then "increase" else "decrease",
               difference_pct := |rp - hp| * 100,
               recent_pct := rp * 100,
               historical_pct := hp * 100 : ChangeDetail }
      else none)
    if significant = [] then none
    else some { ctype := "location_pattern_change", severity := "medium",
                description := "Mudança significativa nos locais frequentados",
                changes := significant }

/-- `_detect_behavioral_changes`.  `_get_historical_patterns` returns, per
pattern type, a Python *list* of row dictionaries; the function immediately
calls `.get('data', \x7b\x7d)` on those list values, which raises
`AttributeError` and lands in the handler before any change is recorded, so
the presence of a `'temporal'` or `'spatial'` key alone decides the outcome
and the entries themselves are never read — `historical_keys` models the key
set of that dictionary.  Without those keys the historical samples are empty
and every sub-detector declines. -/
def detect_behavioral_changes (cfg : PatternConfig)
    (recent_detections : List DetectionRecord) (historical_keys : List String) :
    List TimeChange :=
  if historical_keys.contains "temporal" ∨ historical_keys.contains "spatial" then
    []
  else
    let recent_temporal := analyze_temporal_patterns recent_detections
    let recent_spatial := analyze_spatial_patterns recent_detections
    let optList : Option TimeChange → List TimeChange := fun o =>
      match o with | some c => [c] | none => []
    optList (detect_time_pattern_change cfg.lunch_time_variance_threshold
        "arrival_time" recent_temporal.arrival_minutes []) ++
    optList (detect_lunch_pattern_change cfg.lunch_time_variance_threshold
        recent_temporal.lunch_times []) ++
    optList (detect_location_pattern_change
        recent_spatial.frequent_locations [])

/-- Anomaly dictionary of the pattern analyzer; evidence fields a given
anomaly type does not set keep their defaults. -/
structure PAAnomaly where
  atype : String
  severity : String
  description : String := ""
  location : String := ""
  hour : Nat := 0
deriving DecidableEq, Repr

/-- `_detect_unusual_hours`: flag every detection with hour below 6 or above
22; the severity test is the literal source condition
`22 < hour < 24 or 5 < hour < 6`. -/
def detect_unusual_hours (detections : List DetectionRecord) : List PAAnomaly :=
  detections.filterMap (fun d =>
    let h := hourOf d.timestamp
    if h < 6 ∨ h > 22 then
      some { atype := "unusual_hour_presence",
             severity :=
               if (22 < h ∧ h < 24) ∨ (5 < h ∧ h < 6) then "medium" else "high",
             description := "Presença em horário incomum: " ++ pad2 h ++ "h",
             location := d.location, hour := h }
    else none)

/-- `_detect_excessive_location_time`: medium-severity anomaly for every
location whose average dwell exceeds 4 hours. -/
def detect_excessive_location_time (detections : List DetectionRecord) :
    List PAAnomaly :=
  (calculate_time_per_location detections).filterMap (fun la =>
    if la.2 > 4 * 60 then
      some { atype := "excessive_location_time", severity := "medium",
             location := la.1 }
    else none)

/-- `_is_unusual_sequence`: the third location is a configured restricted
area, the first is not, and the lower-cased middle location mentions neither
`reception` nor `entrance`. -/
def is_unusual_sequence (cfg : PatternConfig) (loc1 loc2 loc3 : String) : Bool :=
  cfg.restricted_areas.contains loc3 &&
  !(cfg.restricted_areas.contains loc1) &&
  !(strContains (lowerStr loc2) "reception") &&
  !(strContains (lowerStr loc2) "entrance")

/-- `_detect_unusual_location_sequence`: one low-severity anomaly per
consecutive detection triple whose locations form an unusual sequence. -/
def detect_unusual_location_sequence (cfg : PatternConfig)
    (detections : List DetectionRecord) : List PAAnomaly :=
  (triples detections).filterMap (fun t =>
    if is_unusual_sequence cfg t.1.location t.2.1.location t.2.2.location then
      some { atype := "unusual_location_sequence", severity := "low",
             description := "Sequência incomum de localizações: " ++
               t.1.location ++ " -> " ++ t.2.1.location ++ " -> " ++
               t.2.2.location }
    else none)

/-- `_detect_frequency_anomaly`: with at least two detections, one
low-severity `large_detection_gap` anomaly when the maximum consecutive gap
exceeds 180 minutes, else one low-severity `high_detection_frequency` anomaly
when the minimum gap is under one minute. -/
def detect_frequency_anomaly (detections : List DetectionRecord) :
    Option PAAnomaly :=
  if detections.length < 2 then none
  else
    let intervals := (consecutivePairs detections).map
      (fun p => ((p.2.timestamp : ℚ) - (p.1.timestamp : ℚ)) / 60)
    match intervals with
    | [] => none
    | i :: is =>
      let maxI := is.foldl max i
      let minI := is.foldl min i
      if maxI > 180 then
        some { atype := "large_detection_gap", severity := "low" }
      else if minI < 1 then
        some { atype := "high_detection_frequency", severity := "low" }
      else none

/-- `_detect_pattern_anomalies`: concatenation of the four rule checks, in
source order.  (`_analyze_restricted_access` exists in the source but is
called from nowhere, so `restricted_area_access` anomalies never enter this
list.) -/
def detect_pattern_anomalies (cfg : PatternConfig)
    (detections : List DetectionRecord) : List PAAnomaly :=
  detect_unusual_hours detections ++
  detect_excessive_location_time detections ++
  detect_unusual_location_sequence cfg detections ++
  (match detect_frequency_anomaly detections with
   | some a => [a]
   | none => [])

/-- `_analyze_restricted_access` (defined but never called by the analysis
flow): one high-severity anomaly per detection and configured restricted
area whose name the lower-cased location contains. -/
def analyze_restricted_access (cfg : PatternConfig)
    (detections : List DetectionRecord) : List PAAnomaly :=
  detections.foldl (fun acc d =>
    acc ++ cfg.restricted_areas.filterMap (fun ra =>
      if strContains (lowerStr d.location) (lowerStr ra) then
        some { atype := "restricted_area_access", severity := "high",
               description := "Acesso à área restrita: " ++ d.location,
               location := d.location }
      else none)) []

/-- Severity weight of `_assess_behavioral_risk`: `high` counts 3, `medium`
counts 2, anything else 1. -/
def severityWeight (s : String) : ℚ :=
  if s = "high" then 3 else if s = "medium" then 2 else 1

/-- The anomalies of type `restricted_area_access` among a list. -/
def restrictedAccesses (anomalies : List PAAnomaly) : List PAAnomaly :=
  anomalies.filter (fun a => a.atype = "restricted_area_access")

/-- `RiskAssessment` dictionary of `_assess_behavioral_risk`. -/
structure RiskAssessment where
  overall_risk_level : String
  risk_score : ℚ
  risk_factors : List String
  protective_factors : List String
deriving DecidableEq, Repr

/-- `_assess_behavioral_risk`, as a function of the four values it reads out
of its argument dictionary: `analysis_results.get('anomalies', [])`,
`analysis_results.get('behavioral_changes', [])`, and the social score and
temporal arrival times found under `'patterns_detected'`.  Score: severity
weights plus 1.5 per behavioral change plus 4 per `restricted_area_access`
anomaly, clipped above at 10; level thresholds 7/5/2 with inclusive lower
bounds. -/
def assess_behavioral_risk (anomalies : List PAAnomaly)
    (changes : List TimeChange) (social_score : ℚ)
    (arrival_times : List String) : RiskAssessment :=
  let score0 : ℚ := (anomalies.map (fun a => severityWeight a.severity)).sum
  let score1 := score0 + (changes.length : ℚ) * (3/2)
  let score2 := score1 + ((restrictedAccesses anomalies).length : ℚ) * 4
  let risk_score := min 10 score2
  let risk_level :=
    if risk_score ≥ 7 then "critical"
    else if risk_score ≥ 5 then "high"
    else if risk_score ≥ 2 then "medium"
    else "low"
  { overall_risk_level := risk_level,
    risk_score := risk_score,
    risk_factors :=
      (if anomalies ≠ [] then
        [toString anomalies.length ++ " anomalias detectadas"] else []) ++
      (if changes ≠ [] then
        [toString changes.length ++ " mudanças comportamentais"] else []) ++
      (if restrictedAccesses anomalies ≠ [] then
        [toString (restrictedAccesses anomalies).length ++
          " acessos a áreas restritas"] else []),
    protective_factors :=
      (if social_score > 7/10 then ["Alta interação social"] else []) ++
      (if arrival_times ≠ [] then ["Padrão de horários consistente"] else []) }

/-- `_generate_recommendations` of the pattern analyzer, as a function of the
three values it reads out of its argument dictionary: the risk level under
`'risk_assessment'`, the anomalies under `'anomalies'` and the changes under
`'behavioral_changes'`. -/
def generate_pattern_recommendations (risk_level : String)
    (anomalies : List PAAnomaly) (changes : List TimeChange) : List String :=
  let recs :=
    (if risk_level = "high" ∨ risk_level = "critical" then
      ["Aumentar frequência de monitoramento", "Revisar permissões de acesso"]
     else []) ++
    (if restrictedAccesses anomalies ≠ [] then
      ["Verificar autorização para áreas restritas",
       "Implementar autenticação adicional"] else []) ++
    (if anomalies.any (fun a => strContains a.atype "unusual_hour") then
      ["Investigar motivo da presença fora do horário",
       "Considerar ajustes no controle de acesso"] else []) ++
    (if changes ≠ [] then
      ["Verificar possíveis mudanças na função/projeto",
       "Considerar conversa com o funcionário"] else [])
  if recs = [] then
    ["Manter monitoramento de rotina", "Continuar análise de padrões"]
  else recs

/-- The full result dictionary of a successful `analyze_patterns` call. -/
structure AnalysisSections where
  temporal_patterns : TemporalPatterns
  spatial_patterns : SpatialPatterns
  behavioral_changes : List TimeChange
  anomalies : List PAAnomaly
  social_patterns : SocialPatterns
  risk_assessment : RiskAssessment
  recommendations : List String
deriving DecidableEq, Repr

/-- `analyze_patterns`: with no recent detections the call returns the
`\x7b"error": ...\x7d` dictionary, modelled by `Except.error`; otherwise the
sub-analyses are assembled into the result.  Two wiring facts of the source
are embedded literally: the dictionary handed to `_assess_behavioral_risk`
stores the change list under key `'changes'` and nothing under
`'behavioral_changes'` or `'patterns_detected'`, so that function sees an
empty change list, social score 0 and no arrival times; and the dictionary
handed to `_generate_recommendations` stores the risk under `'risk'` and the
changes under `'changes'`, so that function sees risk level `'low'` and no
changes. -/
def analyze_patterns (cfg : PatternConfig)
    (recent_detections : List DetectionRecord)
    (historical_keys : List String) : Except String AnalysisSections :=
  if recent_detections = [] then
    Except.error "Sem detecções no período especificado"
  else
    let temporal := analyze_temporal_patterns recent_detections
    let spatial := analyze_spatial_patterns recent_detections
    let changes := detect_behavioral_changes cfg recent_detections historical_keys
    let anomalies := detect_pattern_anomalies cfg recent_detections
    let social := analyze_social_patterns recent_detections
    let risk := assess_behavioral_risk anomalies [] 0 []
    let recs := generate_pattern_recommendations "low" anomalies []
    Except.ok
      { temporal_patterns := temporal, spatial_patterns := spatial,
        behavioral_changes := changes, anomalies := anomalies,
        social_patterns := social, risk_assessment := risk,
        recommendations := recs }

/-- The fields of the dictionary `add_detection` receives; `none` models an
absent key. -/
structure SubmitData where
  timestamp : Option Nat := none
  employee_id : Option String := none
  location : Option String := none
  confidence : Option ℚ := none
deriving DecidableEq, Repr

/-- `add_detection`: build a `DetectionRecord`, substituting the current
time for a missing timestamp and empty/zero defaults for the other missing
fields, append it to the store, and report success.  (The store is the
`detections` table, modelled as a list; only a storage-layer exception can
make the function return `False`, and the in-memory model has none.) -/
def add_detection (now : Nat) (detection_data : SubmitData)
    (store : List DetectionRecord) : Bool × List DetectionRecord :=
  let record : DetectionRecord :=
    { timestamp :=
        match detection_data.timestamp with
        | none => now
        | some t => t,
      employee_id := detection_data.employee_id.getD "",
      location := detection_data.location.getD "",
      confidence := detection_data.confidence.getD 0 }
  (true, store ++ [record])

/-! ### Correlation engine (`integrated_analysis.py`) -/

/-- Python `str.split()` with no argument: split on whitespace runs,
dropping empty fragments. -/
def wordsOf (s : String) : List (List Char) :=
  (s.toList.splitOnP (fun c => c.isWhitespace)).filter (fun w => w ≠ [])

/-- Non-empty word intersection, the source's `words1 & words2` test. -/
def sharedWord (a b : String) : Bool :=
  (wordsOf a).any (fun w => (wordsOf b).contains w)

/-- `_calculate_name_similarity`: lower-case and strip both names, then
exact match → 1, substring containment either way → 0.8, shared word → 0.6,
otherwise 0. -/
def calculate_name_similarity (name1 name2 : String) : ℚ :=
  let n1 := trimStr (lowerStr name1)
  let n2 := trimStr (lowerStr name2)
  if n1 = n2 then 1
  else if strContains n2 n1 || strContains n1 n2 then 4/5
  else if sharedWord n1 n2 then 3/5
  else 0

/-- The identity-consistency dictionary of `_check_identity_consistency`. -/
structure IdentityConsistency where
  face_badge_match : Bool
  confidence_level : ℚ
  verification_status : String
deriving DecidableEq, Repr

/-- `_check_identity_consistency`, as a function of the recognized name
(`face_data['employee_info']['name']`) and the badge-OCR name
(`badge_data['potential_name']`); the empty string models an absent/falsy
name.  `verified` requires similarity strictly above 0.8. -/
def check_identity_consistency (face_employee badge_name : String) :
    IdentityConsistency :=
  if face_employee ≠ "" ∧ badge_name ≠ "" then
    let s := calculate_name_similarity face_employee badge_name
    if s > 4/5 then
      { face_badge_match := true, confidence_level := s,
        verification_status := "verified" }
    else
      { face_badge_match := false, confidence_level := 0,
        verification_status := "mismatch" }
  else if face_employee ≠ "" ∧ badge_name = "" then
    { face_badge_match := false, confidence_level := 0,
      verification_status := "partial" }
  else if face_employee = "" ∧ badge_name ≠ "" then
    { face_badge_match := false, confidence_level := 0,
      verification_status := "partial" }
  else
    { face_badge_match := false, confidence_level := 0,
      verification_status := "unidentified" }

/-- One schedule anomaly as read by `_identify_risk_indicators`. -/
structure ScheduleAnomaly where
  severity : String
  description : String
deriving DecidableEq, Repr

/-- The per-signal analyzer outputs consumed by the correlation engine, each
field being the value the source reads with its `.get` default already
applied. -/
structure AnalysesInput where
  face_detected : Bool
  face_employee_detected : Bool
  badge_has_valid_badge : Bool
  badge_compliance_score : ℚ
  schedule_compliance_status : String
  schedule_anomalies : List ScheduleAnomaly
  attr_dress_code_compliant : Bool
deriving DecidableEq, Repr

/-- One policy violation of `_identify_policy_violations`. -/
structure Violation where
  vtype : String
  severity : String
  description : String
  policy : String
deriving DecidableEq, Repr

/-- `_identify_policy_violations`: independent checks, in source order — no
valid badge (high), schedule violation (medium), dress-code violation (low),
person detected but not identity-matched (high). -/
def identify_policy_violations (a : AnalysesInput) : List Violation :=
  (if !a.badge_has_valid_badge then
    [{ vtype := "no_valid_badge", severity := "high",
       description := "Funcionário sem crachá válido",
       policy := "Uso obrigatório de crachá" }] else []) ++
  (if a.schedule_compliance_status = "violation" then
    [{ vtype := "schedule_violation", severity := "medium",
       description := "Presença fora do horário autorizado",
       policy := "Controle de acesso por horário" }] else []) ++
  (if !a.attr_dress_code_compliant then
    [{ vtype := "dress_code_violation", severity := "low",
       description := "Não conformidade com dress code",
       policy := "Código de vestimenta corporativo" }] else []) ++
  (if !a.face_employee_detected && a.face_detected then
    [{ vtype := "unidentified_person", severity := "high",
       description := "Pessoa não identificada no sistema",
       policy := "Acesso restrito a funcionários autorizados" }] else [])

/-- The risk-indicator dictionary of `_identify_risk_indicators`. -/
structure RiskIndicators where
  security_risks : List String
  operational_risks : List String
  compliance_risks : List String
  overall_risk_level : String
deriving DecidableEq, Repr

/-- `_identify_risk_indicators`: security risk for an unmatched detected
person, one operational risk per high-severity schedule anomaly, compliance
risk for badge compliance below 0.7; weighted count 3/2/1 with thresholds
6/4/2. -/
def identify_risk_indicators (a : AnalysesInput) : RiskIndicators :=
  let security :=
    if !a.face_employee_detected && a.face_detected then
      ["Pessoa não autorizada detectada"] else []
  let operational := a.schedule_anomalies.filterMap (fun an =>
    if an.severity = "high" then some an.description else none)
  let compliance :=
    if a.badge_compliance_score < 7/10 then
      ["Baixa conformidade com política de crachás"] else []
  let total := security.length * 3 + operational.length * 2 + compliance.length
  { security_risks := security, operational_risks := operational,
    compliance_risks := compliance,
    overall_risk_level :=
      if total ≥ 6 then "critical"
      else if total ≥ 4 then "high"
      else if total ≥ 2 then "medium"
      else "low" }

/-- One alert of `_generate_alerts`; the wall-clock timestamp field is not
modelled. -/
structure AlertRec where
  atype : String
  severity : String
  title : String
  description : String
  requires_action : Bool
deriving DecidableEq, Repr

/-- `_generate_alerts`, as a function of the three values it reads from the
integrated result: the policy violations and risk indicators of the
integrated assessment and the face analysis.  One alert per high/critical
violation, one per security risk, plus the dedicated critical
`unidentified_person` alert whenever a person is detected without an
identity match. -/
def generate_alerts (violations : List Violation) (risks : RiskIndicators)
    (a : AnalysesInput) : List AlertRec :=
  (violations.filterMap (fun v =>
    if v.severity = "high" ∨ v.severity = "critical" then
      some { atype := "policy_violation", severity := v.severity,
             title := "Violação: " ++ v.description,
             description := "Política: " ++ v.policy,
             requires_action := true }
    else none)) ++
  (risks.security_risks.map (fun r =>
    { atype := "security_risk", severity := "high",
      title := "Risco de Segurança", description := r,
      requires_action := true })) ++
  (if a.face_detected && !a.face_employee_detected then
    [{ atype := "unidentified_person", severity := "critical",
       title := "Pessoa Não Identificada",
       description := "Pessoa detectada mas não reconhecida no sistema",
       requires_action := true }] else [])

/-- The fixed severity order of the data model:
low < medium < high < critical. -/
def severityRank (s : String) : Nat :=
  if s = "low" then 0
  else if s = "medium" then 1
  else if s = "high" then 2
  else if s = "critical" then 3
  else 0

/-- A consecutive gap qualifies as a lunch candidate when it is strictly
above 30 minutes and strictly below 3 hours. -/
def lunchQualifies (p : DetectionRecord × DetectionRecord) : Prop :=
  1800 < gapSec p ∧ gapSec p < 10800

instance (p : DetectionRecord × DetectionRecord) :
    Decidable (lunchQualifies p) := by
  unfold lunchQualifies; infer_instance

/-- The payload of a successful analysis result (the failure fallback is
never used by the theorems below). -/
def okSections (r : Except String AnalysisSections) : AnalysisSections :=
  match r with
  | Except.ok s => s
  | Except.error _ =>
    { temporal_patterns := {}, spatial_patterns := {},
      behavioral_changes := [], anomalies := [], social_patterns := {},
      risk_assessment :=
        { overall_risk_level := "low", risk_score := 0, risk_factors := [],
          protective_factors := [] },
      recommendations := [] }

/-- An event with a detected but unmatched person and every other signal
compliant. -/
def unmatchedPersonInput : AnalysesInput :=
  { face_detected := true, face_employee_detected := false,
    badge_has_valid_badge := true, badge_compliance_score := 1,
    schedule_compliance_status := "ok", schedule_anomalies := [],
    attr_dress_code_compliant := true }

/-! ### Fixtures and helper lemmas -/

/-- Configuration used by the concrete examples: 30-minute variance
threshold, `server_room` the only restricted area. -/
def cfg0 : PatternConfig := ⟨30, ["server_room"]⟩

/-- A detection at location `l` and timestamp `t` seconds. -/
def dRec (l : String) (t : Nat) : DetectionRecord :=
  { timestamp := t, location := l }

/-- The one-day detection set 09:00, 12:00, 13:45, 18:00 of the lunch
boundary example. -/
def exampleDay : List DetectionRecord :=
  [dRec "office" (9 * 3600), dRec "office" (12 * 3600),
   dRec "office" (13 * 3600 + 45 * 60), dRec "office" (18 * 3600)]

/-- `filterMap` with an if-then-some body is a filter followed by a map. -/
theorem filterMap_if_eq (p : α → Bool) (g : α → β) (l : List α) :
    (l.filterMap (fun a => if p a then some (g a) else none)) =
      (l.filter p).map g := by
  induction l with
  | nil => rfl
  | cons a t ih =>
    by_cases h : p a <;> simp [h, ih]

/-- Hours of day are below 24. -/
theorem hourOf_lt_24 (t : Nat) : hourOf t < 24 := by
  have h : t % 86400 < 86400 := Nat.mod_lt _ (by norm_num)
  have := Nat.div_lt_of_lt_mul (by omega : t % 86400 < 3600 * 24)
  simpa [hourOf] using this

/-! ### Claims -/

/-- Claim C2: the risk level is derived from the clipped score with
inclusive lower bounds 7 (critical), 5 (high) and 2 (medium); and a single
high-severity `restricted_area_access` anomaly with no other anomalies and
no behavioral changes scores 3 + 4 = 7 and is classified critical. -/
theorem claim_C2_risk_level_thresholds :
    (∀ (anomalies : List PAAnomaly) (changes : List TimeChange)
       (social_score : ℚ) (arrival_times : List String),
      (assess_behavioral_risk anomalies changes social_score
          arrival_times).overall_risk_level =
        (let s := (assess_behavioral_risk anomalies changes social_score
            arrival_times).risk_score
         if s ≥ 7 then "critical"
         else if s ≥ 5 then "high"
         else if s ≥ 2 then "medium"
         else "low"))
    ∧ (assess_behavioral_risk
        [{ atype := "restricted_area_access", severity := "high" }] [] 0
        []).risk_score = 7
    ∧ (assess_behavioral_risk
        [{ atype := "restricted_area_access", severity := "high" }] [] 0
        []).overall_risk_level = "critical" := by
  refine ⟨fun anomalies changes social_score arrival_times => rfl, ?_, ?_⟩ <;>
  · simp [assess_behavioral_risk, restrictedAccesses, severityWeight, min_def]
    norm_num

/-- Claim C3 counterexample: with `restricted_areas = [server_room]` the
consecutive triple (reception, hallway, server_room) IS flagged by
`_detect_unusual_location_sequence`, contrary to the claim's assertion that
it is not. -/
theorem claim_C3_counterexample :
    detect_unusual_location_sequence cfg0
      [dRec "reception" 0, dRec "hallway" 60, dRec "server_room" 120] ≠ [] := by
  decide

/-- Claim C3 (amended): for every consecutive triple (A,B,C) a low-severity
`unusual_location_sequence` anomaly is emitted exactly when C's location is
a configured restricted area, A's is not, and B's location does not
case-insensitively contain "reception" or "entrance"; with
`restricted_areas = [server_room]`, the triple (office, hallway,
server_room) is flagged, and the triple (reception, hallway, server_room) is
ALSO flagged, since only the middle location is tested as checkpoint. -/
theorem claim_C3_amended_unusual_sequence :
    (∀ (cfg : PatternConfig) (ds : List DetectionRecord),
      detect_unusual_location_sequence cfg ds =
        ((triples ds).filter (fun t =>
          is_unusual_sequence cfg t.1.location t.2.1.location
            t.2.2.location)).map
          (fun t =>
            { atype := "unusual_location_sequence", severity := "low",
              description := "Sequência incomum de localizações: " ++
                t.1.location ++ " -> " ++ t.2.1.location ++ " -> " ++
                t.2.2.location }))
    ∧ (∀ (cfg : PatternConfig) (loc1 loc2 loc3 : String),
        is_unusual_sequence cfg loc1 loc2 loc3 = true ↔
          (loc3 ∈ cfg.restricted_areas ∧ loc1 ∉ cfg.restricted_areas ∧
           strContains (lowerStr loc2) "reception" = false ∧
           strContains (lowerStr loc2) "entrance" = false))
    ∧ detect_unusual_location_sequence cfg0
        [dRec "office" 0, dRec "hallway" 60, dRec "server_room" 120] ≠ []
    ∧ detect_unusual_location_sequence cfg0
        [dRec "reception" 0, dRec "hallway" 60, dRec "server_room" 120] ≠ [] := by
  refine ⟨?_, ?_, by decide, by decide⟩
  · intro cfg ds
    exact filterMap_if_eq _ _ _
  · intro cfg loc1 loc2 loc3
    simp [is_unusual_sequence, List.elem_iff,
      Bool.and_eq_true, Bool.not_eq_true']
    tauto

/-- Claim C4: every detection with local hour strictly below 6 or strictly
above 22 produces an `unusual_hour_presence` anomaly, whose severity is high
for every such hour except the boundary hour 23, scored medium; detections
at other hours produce nothing. -/
theorem claim_C4_unusual_hours (detections : List DetectionRecord) :
    detect_unusual_hours detections =
      detections.filterMap (fun d =>
        let h := hourOf d.timestamp
        if h < 6 ∨ h > 22 then
          some { atype := "unusual_hour_presence",
                 severity := if h = 23 then "medium" else "high",
                 description := "Presença em horário incomum: " ++ pad2 h ++ "h",
                 location := d.location, hour := h }
        else none) := by
  unfold detect_unusual_hours
  apply List.filterMap_congr
  intro d _
  have h24 := hourOf_lt_24 d.timestamp
  by_cases hflag : hourOf d.timestamp < 6 ∨ hourOf d.timestamp > 22
  · simp only [hflag, if_true]
    have : ((22 < hourOf d.timestamp ∧ hourOf d.timestamp < 24) ∨
        (5 < hourOf d.timestamp ∧ hourOf d.timestamp < 6)) ↔
        hourOf d.timestamp = 23 := by omega
    simp [this]
  · simp only [hflag, if_false]

/-- Claim C6 counterexample: a submitted record carrying neither a timestamp
nor a location is accepted (`True` returned) and appended to the store with
the current time and an empty location substituted, rather than being
rejected and never stored. -/
theorem claim_C6_counterexample :
    (add_detection 1000 {} []).1 = true ∧
    (add_detection 1000 {} []).2 =
      [{ timestamp := 1000, employee_id := "", location := "",
         confidence := 0 }] := by
  decide

/-- Claim C6 (amended): `add_detection` accepts every record: a missing
timestamp is replaced by the current time, missing employee id and location
by the empty string and missing confidence by 0, the defaulted record is
appended to the store, and the call reports success. -/
theorem claim_C6_amended_add_detection (now : Nat) (data : SubmitData)
    (store : List DetectionRecord) :
    add_detection now data store =
      (true, store ++
        [{ timestamp := data.timestamp.getD now,
           employee_id := data.employee_id.getD "",
           location := data.location.getD "",
           confidence := data.confidence.getD 0 }]) := by
  cases h : data.timestamp <;> simp [add_detection, h]

/-- The running maximum of `lunchFold` never decreases. -/
theorem lunchFold_fst_ge (ps : List (DetectionRecord × DetectionRecord)) :
    ∀ (mg : ℤ) (best : Option (Nat × Nat)), mg ≤ (lunchFold ps mg best).1 := by
  induction ps with
  | nil => intro mg best; simp [lunchFold]
  | cons p rest ih =>
    intro mg best
    by_cases h : 1800 < gapSec p ∧ gapSec p < 10800 ∧ gapSec p > mg
    · rw [lunchFold, if_pos h]
      exact le_trans (le_of_lt h.2.2) (ih _ _)
    · rw [lunchFold, if_neg h]
      exact ih _ _

/-- Every qualifying gap of the traversed list is bounded by the final
running maximum. -/
theorem lunchFold_fst_bound (ps : List (DetectionRecord × DetectionRecord)) :
    ∀ (mg : ℤ) (best : Option (Nat × Nat)) (p : DetectionRecord × DetectionRecord),
      p ∈ ps → lunchQualifies p → gapSec p ≤ (lunchFold ps mg best).1 := by
  induction ps with
  | nil => intro mg best p hp; cases hp
  | cons q rest ih =>
    intro mg best p hp hq
    by_cases h : 1800 < gapSec q ∧ gapSec q < 10800 ∧ gapSec q > mg
    · rw [lunchFold, if_pos h]
      rcases List.mem_cons.mp hp with hp | hp
      · subst hp
        exact lunchFold_fst_ge rest _ _
      · exact ih _ _ p hp hq
    · rw [lunchFold, if_neg h]
      rcases List.mem_cons.mp hp with hp | hp
      · subst hp
        have hle : gapSec p ≤ mg := by
          by_contra hgt
          exact h ⟨hq.1, hq.2, lt_of_not_le hgt⟩
        exact le_trans hle (lunchFold_fst_ge rest _ _)
      · exact ih _ _ p hp hq

/-- The fold either leaves its state untouched or ends on the gap and
endpoints of some qualifying pair of the list that beats the initial
maximum. -/
theorem lunchFold_characterize (ps : List (DetectionRecord × DetectionRecord)) :
    ∀ (mg : ℤ) (best : Option (Nat × Nat)),
      lunchFold ps mg best = (mg, best) ∨
      ∃ p, p ∈ ps ∧ lunchQualifies p ∧ mg < gapSec p ∧
        lunchFold ps mg best =
          (gapSec p, some (p.1.timestamp, p.2.timestamp)) := by
  induction ps with
  | nil => intro mg best; left; simp [lunchFold]
  | cons q rest ih =>
    intro mg best
    by_cases h : 1800 < gapSec q ∧ gapSec q < 10800 ∧ gapSec q > mg
    · rw [lunchFold, if_pos h]
      rcases ih (gapSec q) (some (q.1.timestamp, q.2.timestamp)) with heq | ⟨p, hp, hq', hgt, heq⟩
      · right
        exact ⟨q, List.mem_cons_self _ _, ⟨h.1, h.2.1⟩, h.2.2, heq⟩
      · right
        exact ⟨p, List.mem_cons_of_mem _ hp, hq', lt_trans h.2.2 hgt, heq⟩
    · rw [lunchFold, if_neg h]
      rcases ih mg best with heq | ⟨p, hp, hq', hgt, heq⟩
      · left; exact heq
      · right
        exact ⟨p, List.mem_cons_of_mem _ hp, hq', hgt, heq⟩

/-- Once the fold holds a candidate it never returns to `none`. -/
theorem lunchFold_some (ps : List (DetectionRecord × DetectionRecord)) :
    ∀ (mg : ℤ) (x : Nat × Nat), (lunchFold ps mg (some x)).2.isSome := by
  induction ps with
  | nil => intro mg x; simp [lunchFold]
  | cons q rest ih =>
    intro mg x
    by_cases h : 1800 < gapSec q ∧ gapSec q < 10800 ∧ gapSec q > mg
    · rw [lunchFold, if_pos h]; exact ih _ _
    · rw [lunchFold, if_neg h]; exact ih _ _

/-- A qualifying pair beating the running maximum forces a candidate. -/
theorem lunchFold_fires (ps : List (DetectionRecord × DetectionRecord)) :
    ∀ (mg : ℤ) (best : Option (Nat × Nat))
      (p : DetectionRecord × DetectionRecord),
      p ∈ ps → lunchQualifies p → mg < gapSec p →
      (lunchFold ps mg best).2.isSome := by
  induction ps with
  | nil => intro mg best p hp; cases hp
  | cons q rest ih =>
    intro mg best p hp hq hgt
    by_cases h : 1800 < gapSec q ∧ gapSec q < 10800 ∧ gapSec q > mg
    · rw [lunchFold, if_pos h]; exact lunchFold_some _ _ _
    · rw [lunchFold, if_neg h]
      rcases List.mem_cons.mp hp with hp | hp
      · subst hp
        exact absurd ⟨hq.1, hq.2, hgt⟩ h
      · exact ih _ _ p hp hq hgt

/-- Claim C7: per day, the reported lunch break is the single largest
consecutive-pair gap strictly between 30 minutes and 3 hours, reported with
its formatted start, end and whole-minute duration; no entry is produced
when no gap qualifies; and on the day 09:00, 12:00, 13:45, 18:00 the lunch
window is 12:00–13:45 with 105 minutes (the 180-minute morning gap being
excluded by the strict upper bound). -/
theorem claim_C7_lunch_break (day_detections : List DetectionRecord) :
    (detect_lunch_break day_detections = none ↔
      ∀ p ∈ consecutivePairs day_detections, ¬ lunchQualifies p)
    ∧ (∀ r, detect_lunch_break day_detections = some r →
        ∃ p ∈ consecutivePairs day_detections, lunchQualifies p ∧
          (∀ q ∈ consecutivePairs day_detections,
            lunchQualifies q → gapSec q ≤ gapSec p) ∧
          r = { start_time := formatHM p.1.timestamp,
                end_time := formatHM p.2.timestamp,
                duration_minutes := (gapSec p).toNat / 60 })
    ∧ detect_lunch_break exampleDay =
        some { start_time := "12:00", end_time := "13:45",
               duration_minutes := 105 } := by
  refine ⟨?_, ?_, by decide⟩
  · by_cases hlen : day_detections.length < 2
    · rw [detect_lunch_break, if_pos hlen]
      have hpairs : consecutivePairs day_detections = [] := by
        match day_detections, hlen with
        | [], _ => rfl
        | [_], _ => rfl
      simp [hpairs]
    · rw [detect_lunch_break, if_neg hlen]
      rcases lunchFold_characterize (consecutivePairs day_detections) 0 none
        with heq | ⟨p, hp, hq, _, heq⟩
      · rw [heq]
        simp only [Option.some.injEq, reduceCtorEq, true_iff]
        intro p hp hq
        have h0 : (0 : ℤ) < gapSec p := by
          have := hq.1; omega
        have hfire := lunchFold_fires (consecutivePairs day_detections) 0 none
          p hp hq h0
        rw [heq] at hfire
        simp at hfire
      · rw [heq]
        simp only [Option.some.injEq, reduceCtorEq, false_iff, not_forall]
        exact ⟨p, hp, not_not_intro hq⟩
  · intro r hr
    by_cases hlen : day_detections.length < 2
    · rw [detect_lunch_break, if_pos hlen] at hr
      simp at hr
    · rw [detect_lunch_break, if_neg hlen] at hr
      rcases lunchFold_characterize (consecutivePairs day_detections) 0 none
        with heq | ⟨p, hp, hq, _, heq⟩
      · rw [heq] at hr
        simp at hr
      · rw [heq] at hr
        refine ⟨p, hp, hq, ?_, ?_⟩
        · intro q hqmem hqual
          have hbound := lunchFold_fst_bound (consecutivePairs day_detections)
            0 none q hqmem hqual
          rw [heq] at hbound
          exact hbound
        · simp only [Option.some.injEq] at hr
          exact hr.symm

/-- In every analysis call the behavioral-change list is empty: when the
store returned historical rows their list values abort the comparison with
an `AttributeError` caught by the handler, and otherwise every sub-detector
declines for want of a historical sample. -/
theorem detect_behavioral_changes_eq_nil (cfg : PatternConfig)
    (recent : List DetectionRecord) (historical_keys : List String) :
    detect_behavioral_changes cfg recent historical_keys = [] := by
  rw [detect_behavioral_changes]
  by_cases h : historical_keys.contains "temporal" ∨
      historical_keys.contains "spatial"
  · rw [if_pos h]
  · rw [if_neg h]
    simp [detect_time_pattern_change, detect_lunch_pattern_change,
      detect_location_pattern_change]

/-- Claim C1: for every analysis call that returns a result, the behavioral
risk score equals the severity-weight sum over the call's anomalies (low 1,
medium 2, high 3) plus 1.5 per behavioral-change record of the call plus 4
per `restricted_area_access` anomaly, clipped to the range 0–10. -/
theorem claim_C1_risk_score_formula (cfg : PatternConfig)
    (recent : List DetectionRecord) (historical_keys : List String)
    (s : AnalysisSections)
    (h : analyze_patterns cfg recent historical_keys = Except.ok s) :
    s.risk_assessment.risk_score =
      min 10 ((s.anomalies.map (fun a => severityWeight a.severity)).sum +
        (s.behavioral_changes.length : ℚ) * (3/2) +
        ((restrictedAccesses s.anomalies).length : ℚ) * 4)
    ∧ 0 ≤ s.risk_assessment.risk_score
    ∧ s.risk_assessment.risk_score ≤ 10 := by
  rw [analyze_patterns] at h
  by_cases hempty : recent = []
  · rw [if_pos hempty] at h
    cases h
  · rw [if_neg hempty] at h
    simp only [Except.ok.injEq] at h
    subst h
    simp only [assess_behavioral_risk, detect_behavioral_changes_eq_nil,
      List.length_nil, Nat.cast_zero]
    have hsum : (0 : ℚ) ≤
        ((detect_pattern_anomalies cfg recent).map
          (fun a => severityWeight a.severity)).sum := by
      apply List.sum_nonneg
      intro x hx
      simp only [List.mem_map] at hx
      obtain ⟨a, _, rfl⟩ := hx
      unfold severityWeight
      split_ifs <;> norm_num
    refine ⟨by ring_nf, ?_, ?_⟩
    · refine le_min (by norm_num) ?_
      have : (0 : ℚ) ≤
          ((restrictedAccesses (detect_pattern_anomalies cfg recent)).length : ℚ) * 4 := by
        positivity
      nlinarith
    · exact min_le_left _ _

/-- Witness for claim C1 at the concrete lunch-example day. -/
theorem claim_C1_witness :
    analyze_patterns cfg0 exampleDay [] =
      Except.ok (okSections (analyze_patterns cfg0 exampleDay [])) ∧
    (okSections (analyze_patterns cfg0 exampleDay
        [])).risk_assessment.risk_score =
      min 10 (((okSections (analyze_patterns cfg0 exampleDay [])).anomalies.map
          (fun a => severityWeight a.severity)).sum +
        ((okSections (analyze_patterns cfg0 exampleDay
            [])).behavioral_changes.length : ℚ) * (3/2) +
        ((restrictedAccesses (okSections (analyze_patterns cfg0 exampleDay
            [])).anomalies).length : ℚ) * 4) := by
  have hok : analyze_patterns cfg0 exampleDay [] =
      Except.ok (okSections (analyze_patterns cfg0 exampleDay [])) := rfl
  exact ⟨hok, (claim_C1_risk_score_formula cfg0 exampleDay [] _ hok).1⟩

/-- Claim C5 counterexample: called on an empty detection set, the analysis
returns the data-sparsity error value instead of a result carrying the five
sections. -/
theorem claim_C5_counterexample :
    analyze_patterns cfg0 [] [] =
      Except.error "Sem detecções no período especificado" := by
  rfl

/-- Claim C5 (amended): the analysis is total — it never raises — and it
returns the full well-formed structure (patterns, anomalies,
behavioral_changes, risk_assessment, recommendations, with data-less
sections empty) exactly when the detection set is nonempty; on an empty
detection set it returns an error value instead. -/
theorem claim_C5_amended_analysis_totality (cfg : PatternConfig)
    (recent : List DetectionRecord) (historical_keys : List String) :
    (analyze_patterns cfg recent historical_keys).isOk = !recent.isEmpty := by
  rw [analyze_patterns]
  by_cases hempty : recent = []
  · subst hempty
    rfl
  · rw [if_neg hempty]
    cases recent with
    | nil => exact absurd rfl hempty
    | cons a t => rfl

/-- Witness for claim C7 at the concrete day 09:00, 12:00, 13:45, 18:00. -/
theorem claim_C7_witness :
    ∃ p ∈ consecutivePairs exampleDay, lunchQualifies p ∧
      (∀ q ∈ consecutivePairs exampleDay,
        lunchQualifies q → gapSec q ≤ gapSec p) ∧
      ({ start_time := "12:00", end_time := "13:45",
         duration_minutes := 105 } : LunchInfo) =
        { start_time := formatHM p.1.timestamp,
          end_time := formatHM p.2.timestamp,
          duration_minutes := (gapSec p).toNat / 60 } :=
  (claim_C7_lunch_break exampleDay).2.1
    { start_time := "12:00", end_time := "13:45", duration_minutes := 105 }
    (by decide)

/-- Claim C8: with both a recent and a historical sample, a time-pattern
change record is emitted exactly when the absolute difference of the two
minute-means strictly exceeds the configured threshold, carrying severity
medium below twice the threshold and high otherwise and both averages
formatted HH:MM; with no baseline or an empty recent set no record is
produced (and, the embedding being total, no error is raised). -/
theorem claim_C8_time_pattern_change (threshold : ℚ) (pattern_type : String)
    (recent_minutes historical_minutes : List Nat) :
    ((recent_minutes = [] ∨ historical_minutes = []) →
      detect_time_pattern_change threshold pattern_type recent_minutes
        historical_minutes = none)
    ∧ (recent_minutes ≠ [] → historical_minutes ≠ [] →
        ((detect_time_pattern_change threshold pattern_type recent_minutes
            historical_minutes ≠ none ↔
          |meanQ recent_minutes - meanQ historical_minutes| > threshold)
        ∧ ∀ c, detect_time_pattern_change threshold pattern_type
            recent_minutes historical_minutes = some c →
            c.severity = (if |meanQ recent_minutes - meanQ historical_minutes| <
                threshold * 2 then "medium" else "high")
            ∧ c.recent_average = formatAvgHM (meanQ recent_minutes)
            ∧ c.historical_average = formatAvgHM (meanQ historical_minutes)
            ∧ c.ctype = pattern_type ++ "_change")) := by
  constructor
  · intro h
    rw [detect_time_pattern_change, if_pos h]
  · intro h1 h2
    have hne : ¬(recent_minutes = [] ∨ historical_minutes = []) := by tauto
    rw [detect_time_pattern_change, if_neg hne]
    by_cases hd : |meanQ recent_minutes - meanQ historical_minutes| > threshold
    · refine ⟨by simp [hd], ?_⟩
      intro c hc
      simp only [hd, if_true, Option.some.injEq] at hc
      subst hc
      exact ⟨rfl, rfl, rfl, rfl⟩
    · refine ⟨by simp [hd], ?_⟩
      intro c hc
      simp only [hd, if_false] at hc
      exact Option.noConfusion hc

/-- Witness for claim C8 at threshold 15 with single samples 09:00 and
08:00. -/
theorem claim_C8_witness :
    ([540] : List Nat) ≠ [] ∧ ([480] : List Nat) ≠ [] ∧
    (detect_time_pattern_change 15 "arrival_time" [540] [480] ≠ none ↔
      |meanQ [540] - meanQ [480]| > 15) := by
  refine ⟨by decide, by decide, ?_⟩
  exact ((claim_C8_time_pattern_change 15 "arrival_time" [540] [480]).2
    (by decide) (by decide)).1

/-- Claim C9: the identity similarity is 1 on exact match of the lower-cased
trimmed names, 0.8 on substring containment in either direction, 0.6 on any
shared word, 0 otherwise; the identity is classified verified exactly when
both names are present and the similarity strictly exceeds 0.8; and
"Maria Silva" versus "Maria" scores 0.8 and is classified mismatch. -/
theorem claim_C9_identity_similarity :
    (∀ name1 name2 : String,
      (trimStr (lowerStr name1) = trimStr (lowerStr name2) →
        calculate_name_similarity name1 name2 = 1)
      ∧ (trimStr (lowerStr name1) ≠ trimStr (lowerStr name2) →
          (strContains (trimStr (lowerStr name2)) (trimStr (lowerStr name1)) ||
            strContains (trimStr (lowerStr name1))
              (trimStr (lowerStr name2))) = true →
          calculate_name_similarity name1 name2 = 4/5)
      ∧ (trimStr (lowerStr name1) ≠ trimStr (lowerStr name2) →
          (strContains (trimStr (lowerStr name2)) (trimStr (lowerStr name1)) ||
            strContains (trimStr (lowerStr name1))
              (trimStr (lowerStr name2))) = false →
          sharedWord (trimStr (lowerStr name1)) (trimStr (lowerStr name2)) = true →
          calculate_name_similarity name1 name2 = 3/5)
      ∧ (trimStr (lowerStr name1) ≠ trimStr (lowerStr name2) →
          (strContains (trimStr (lowerStr name2)) (trimStr (lowerStr name1)) ||
            strContains (trimStr (lowerStr name1))
              (trimStr (lowerStr name2))) = false →
          sharedWord (trimStr (lowerStr name1)) (trimStr (lowerStr name2)) = false →
          calculate_name_similarity name1 name2 = 0))
    ∧ (∀ face_employee badge_name : String,
        (check_identity_consistency face_employee
            badge_name).verification_status = "verified" ↔
          (face_employee ≠ "" ∧ badge_name ≠ "" ∧
            calculate_name_similarity face_employee badge_name > 4/5))
    ∧ calculate_name_similarity "Maria Silva" "Maria" = 4/5
    ∧ (check_identity_consistency "Maria Silva"
        "Maria").verification_status = "mismatch" := by
  have hsim : calculate_name_similarity "Maria Silva" "Maria" = 4/5 := rfl
  refine ⟨?_, ?_, hsim, ?_⟩
  · intro name1 name2
    refine ⟨?_, ?_, ?_, ?_⟩
    · intro h1
      simp [calculate_name_similarity, h1]
    · intro h1 h2
      simp [calculate_name_similarity, h1, h2]
    · intro h1 h2 h3
      simp [calculate_name_similarity, h1, h2, h3]
    · intro h1 h2 h3
      simp [calculate_name_similarity, h1, h2, h3]
  · intro face_employee badge_name
    rw [check_identity_consistency]
    by_cases hf : face_employee ≠ "" ∧ badge_name ≠ ""
    · rw [if_pos hf]
      by_cases hs : calculate_name_similarity face_employee badge_name > 4/5
      · rw [if_pos hs]
        simp [hf.1, hf.2, hs]
      · rw [if_neg hs]
        simp only [String.reduceEq, false_iff]
        tauto
    · rw [if_neg hf]
      have : ∀ st : String, st = "partial" ∨ st = "unidentified" →
          ¬ st = "verified" := by
        intro st h
        rcases h with h | h <;> subst h <;> decide
      split_ifs with h1 h2
      · simp only [false_iff]; tauto
      · simp only [false_iff]; tauto
      · simp only [false_iff]; tauto
  · rw [check_identity_consistency,
      if_pos (by decide : ("Maria Silva" : String) ≠ "" ∧ ("Maria" : String) ≠ "")]
    rw [hsim, if_neg (by norm_num : ¬ (4/5 : ℚ) > 4/5)]

/-- Witness for claim C9's substring case at the pair Anna / Anna Lee. -/
theorem claim_C9_witness :
    trimStr (lowerStr "Anna") ≠ trimStr (lowerStr "Anna Lee") ∧
    (strContains (trimStr (lowerStr "Anna Lee")) (trimStr (lowerStr "Anna")) ||
      strContains (trimStr (lowerStr "Anna"))
        (trimStr (lowerStr "Anna Lee"))) = true ∧
    calculate_name_similarity "Anna" "Anna Lee" = 4/5 := by
  refine ⟨by decide, by decide, ?_⟩
  exact (claim_C9_identity_similarity.1 "Anna" "Anna Lee").2.1 (by decide)
    (by decide)

/-- Claim C10: whenever the face analysis reports a person detected with no
employee identity match, the alert list contains an `unidentified_person`
alert of severity critical requiring action, one ordinal severity level
above the high-severity `unidentified_person` policy violation recorded for
the same event. -/
theorem claim_C10_unidentified_person_alert (a : AnalysesInput)
    (hdet : a.face_detected = true) (hmatch : a.face_employee_detected = false) :
    ((generate_alerts (identify_policy_violations a)
        (identify_risk_indicators a) a).any (fun al =>
          al.atype == "unidentified_person" && al.severity == "critical" &&
          al.requires_action)) = true
    ∧ ((identify_policy_violations a).any (fun v =>
          v.vtype == "unidentified_person" && v.severity == "high")) = true
    ∧ severityRank "critical" = severityRank "high" + 1 := by
  refine ⟨?_, ?_, by decide⟩
  · simp [generate_alerts, hdet, hmatch]
  · simp [identify_policy_violations, hdet, hmatch]

/-- Witness for claim C10 at `unmatchedPersonInput`. -/
theorem claim_C10_witness :
    unmatchedPersonInput.face_detected = true
    ∧ unmatchedPersonInput.face_employee_detected = false
    ∧ ((generate_alerts (identify_policy_violations unmatchedPersonInput)
        (identify_risk_indicators unmatchedPersonInput)
        unmatchedPersonInput).any (fun al =>
          al.atype == "unidentified_person" && al.severity == "critical" &&
          al.requires_action)) = true := by
  refine ⟨rfl, rfl, ?_⟩
  exact (claim_C10_unidentified_person_alert unmatchedPersonInput rfl rfl).1

end BigBrother
